import Mathlib

/-!
Shallow embedding of `server.py` (clan fan-site backend: FastAPI + MongoDB).

Modelling conventions:
- Each MongoDB collection is a `List (Stored α)`: `Stored` pairs the typed
  document with the storage-internal identifier (Mongo's `_id`); the
  projection `{"_id": 0}` used by every read is the `.data` projection.
- `find_one` / `update_one` / `delete_one` act on the first matching
  document, as Mongo does.
- `find({}).sort(k, dir).to_list(100)` is modelled by a stable sort on the
  designated key followed by `take 100`; the claims only concern
  sortedness, the cap and the returned multiset, all of which any
  Mongo-compatible sort satisfies.
- JWT: a token is either a payload signed with some secret, or malformed.
  `jwt.decode` succeeds exactly on a token signed with the server's secret
  whose `exp` lies in the future; PyJWT checks the signature before expiry.
- Nondeterministic inputs of the handlers (`uuid.uuid4()`, Mongo ObjectIds,
  `datetime.now`) are passed as explicit parameters. Timestamps are model
  integers; the `isoformat`/`fromisoformat` round-trip the source performs
  on `created_at` is the identity on timestamps and is elided.
- Each route handler is a function from its inputs and the store state to
  `Except ApiError result × AppState`; a failing `Depends(verify_token)`
  aborts the request before the handler body runs, so the state is
  returned unchanged on an auth error.
-/

namespace Portugal

/-- Errors raised via `HTTPException` in the source. -/
inductive ApiError where
  | unauthorized (detail : String)
  | notFound (detail : String)
  deriving DecidableEq, Repr

/-- HTTP status code of an error (`status.HTTP_401_UNAUTHORIZED` / 404). -/
def ApiError.statusCode : ApiError → Nat
  | .unauthorized _ => 401
  | .notFound _ => 404

/-- Claims of the JWT issued by `create_access_token`: the source puts
`sub`, `role` and `exp` into the encoded payload. -/
structure TokenPayload where
  sub : String
  role : String
  exp : Int
  deriving DecidableEq, Repr

/-- Bearer token as presented to `verify_token`: either a JWT signed with
some secret, or a string that does not decode at all. -/
inductive Token where
  | signed (payload : TokenPayload) (secret : String)
  | malformed (raw : String)
  deriving DecidableEq, Repr

/-- Model of `verify_token` (server.py lines 116-124): `jwt.decode`
validates the signature against `JWT_SECRET` and the `exp` claim against
the current time; signature errors and expiry map to 401 responses. -/
def verify_token (secret : String) (now : Int) : Token → Except ApiError TokenPayload
  | .malformed _ => .error (.unauthorized "Invalid token")
  | .signed p sec =>
    if sec ≠ secret then .error (.unauthorized "Invalid token")
    else if p.exp ≤ now then .error (.unauthorized "Token expired")
    else .ok p

/-- Model of `create_access_token` (lines 109-114) at the payload the app
uses (`sub`/`role`); the default `expires_delta` is 24 hours. -/
def create_access_token (secret : String) (now : Int) (sub role : String) : Token :=
  .signed { sub := sub, role := role, exp := now + 24 * 60 * 60 } secret

/-- Static configuration resolved from the environment at startup. -/
structure Config where
  jwt_secret : String
  admin_username : String
  admin_password : String

/-- Request body of `POST /auth/login`. -/
structure AdminLogin where
  username : String
  password : String
  deriving DecidableEq, Repr

/-- Response body of `POST /auth/login`. -/
structure AdminToken where
  access_token : Token
  token_type : String := "bearer"
  deriving DecidableEq, Repr

/-- Model of `admin_login` (lines 129-135). -/
def admin_login (cfg : Config) (now : Int) (login_data : AdminLogin) :
    Except ApiError AdminToken :=
  if login_data.username = cfg.admin_username ∧ login_data.password = cfg.admin_password then
    .ok { access_token := create_access_token cfg.jwt_secret now login_data.username "admin" }
  else .error (.unauthorized "Invalid credentials")

/-- Pydantic model `Leader`. -/
structure Leader where
  id : String
  name : String
  title : String
  description : String
  image_url : String
  order : Int
  deriving DecidableEq, Repr

/-- Pydantic model `WarStatistic`. -/
structure WarStatistic where
  id : String
  opponent : String
  wins : Int
  losses : Int
  order : Int
  deriving DecidableEq, Repr

/-- Pydantic model `WarStatisticCreate`: `wins`, `losses`, `order` default
to 0 and are plain ints (no nonnegativity constraint in the source). -/
structure WarStatisticCreate where
  opponent : String
  wins : Int := 0
  losses : Int := 0
  order : Int := 0
  deriving DecidableEq, Repr

/-- Pydantic model `WarStatisticUpdate`: all fields optional. -/
structure WarStatisticUpdate where
  opponent : Option String := none
  wins : Option Int := none
  losses : Option Int := none
  order : Option Int := none
  deriving DecidableEq, Repr

/-- Pydantic model `GalleryImage`. -/
structure GalleryImage where
  id : String
  image_url : String
  created_at : Int
  deriving DecidableEq, Repr

/-- Pydantic model `GalleryImageCreate`. -/
structure GalleryImageCreate where
  image_url : String
  deriving DecidableEq, Repr

/-- Pydantic model `Testimonial`; `author_name` defaults to the Russian
string "Анонимный воин" and `approved` defaults to `false`. -/
structure Testimonial where
  id : String
  author_name : Option String := some "Анонимный воин"
  content : String
  approved : Bool := false
  created_at : Int
  deriving DecidableEq, Repr

/-- Pydantic model `TestimonialCreate`. -/
structure TestimonialCreate where
  author_name : Option String := some "Анонимный воин"
  content : String
  deriving DecidableEq, Repr

/-- Stored document: typed payload plus the storage-internal `_id`. -/
structure Stored (α : Type) where
  internalId : Nat
  data : α
  deriving DecidableEq, Repr

/-- The four collections of the document store. -/
structure AppState where
  leaders : List (Stored Leader)
  wars : List (Stored WarStatistic)
  gallery : List (Stored GalleryImage)
  testimonials : List (Stored Testimonial)
  deriving DecidableEq, Repr

/-- Store with all collections empty. -/
def emptyState : AppState :=
  { leaders := [], wars := [], gallery := [], testimonials := [] }

/-- Ascending comparison on an integer sort key (`sort(k, 1)`). -/
def ascBy {α : Type} (key : α → Int) : α → α → Prop := fun a b => key a ≤ key b

/-- Descending comparison on an integer sort key (`sort(k, -1)`). -/
def descBy {α : Type} (key : α → Int) : α → α → Prop := fun a b => key b ≤ key a

instance {α : Type} (key : α → Int) : DecidableRel (ascBy key) :=
  fun _ _ => Int.decLe _ _

instance {α : Type} (key : α → Int) : DecidableRel (descBy key) :=
  fun _ _ => Int.decLe _ _

instance {α : Type} (key : α → Int) : IsTotal α (ascBy key) :=
  ⟨fun a b => Int.le_total (key a) (key b)⟩

instance {α : Type} (key : α → Int) : IsTotal α (descBy key) :=
  ⟨fun a b => Int.le_total (key b) (key a)⟩

instance {α : Type} (key : α → Int) : IsTrans α (ascBy key) :=
  ⟨fun _ _ _ h1 h2 => Int.le_trans h1 h2⟩

instance {α : Type} (key : α → Int) : IsTrans α (descBy key) :=
  ⟨fun _ _ _ h1 h2 => Int.le_trans h2 h1⟩

/-- Comparison on documents induced by a comparison on their payloads. -/
def liftRel {α : Type} (q : α → α → Prop) : Stored α → Stored α → Prop :=
  fun d d' => q d.data d'.data

instance {α : Type} (q : α → α → Prop) [DecidableRel q] : DecidableRel (liftRel q) :=
  fun d d' => inferInstanceAs (Decidable (q d.data d'.data))

instance {α : Type} (q : α → α → Prop) [IsTotal α q] : IsTotal (Stored α) (liftRel q) :=
  ⟨fun d d' => IsTotal.total d.data d'.data⟩

instance {α : Type} (q : α → α → Prop) [hq : IsTrans α q] : IsTrans (Stored α) (liftRel q) :=
  ⟨fun a b c h1 h2 => @IsTrans.trans α q hq a.data b.data c.data h1 h2⟩

/-- Model of `find(query, ).sort(key, dir).to_list(100)`: sort the selected
documents by the designated key, cap at 100, strip the internal `_id`. -/
def mongoList {α : Type} (q : α → α → Prop) [DecidableRel q]
    (l : List (Stored α)) : List α :=
  ((List.insertionSort (liftRel q) l).take 100).map fun d => d.data

/-- Model of `update_one(filter, set)`: rewrite the first matching
document, keep everything else. -/
def updateFirst {α : Type} (p : α → Bool) (f : α → α) : List α → List α
  | [] => []
  | a :: l => if p a then f a :: l else a :: updateFirst p f l

/-- Model of `delete_one(filter)`: drop the first matching document. -/
def deleteFirst {α : Type} (p : α → Bool) : List α → List α
  | [] => []
  | a :: l => if p a then l else a :: deleteFirst p l

/-- Route `GET /leaders` (lines 138-141): all leaders sorted by `order`
ascending, capped at 100, `_id` stripped. -/
def get_leaders (s : AppState) : List Leader :=
  mongoList (ascBy Leader.order) s.leaders

/-- Route `GET /wars` (lines 144-147). -/
def get_wars (s : AppState) : List WarStatistic :=
  mongoList (ascBy WarStatistic.order) s.wars

/-- Route `POST /wars` (lines 149-154), auth-gated: builds a
`WarStatistic` from the request body plus a fresh id and inserts it. -/
def create_war (secret : String) (now : Int) (tok : Token)
    (war_data : WarStatisticCreate) (fid : String) (oid : Nat) (s : AppState) :
    Except ApiError WarStatistic × AppState :=
  match verify_token secret now tok with
  | .error e => (.error e, s)
  | .ok _ =>
    let war_obj : WarStatistic :=
      { id := fid, opponent := war_data.opponent, wins := war_data.wins,
        losses := war_data.losses, order := war_data.order }
    (.ok war_obj, { s with wars := s.wars ++ [{ internalId := oid, data := war_obj }] })

/-- The `$set` document of `update_war`: the non-`None` fields of the
request body applied over an existing record (dict comprehension at
line 162). -/
def apply_update (u : WarStatisticUpdate) (w : WarStatistic) : WarStatistic :=
  { id := w.id
    opponent := u.opponent.getD w.opponent
    wins := u.wins.getD w.wins
    losses := u.losses.getD w.losses
    order := u.order.getD w.order }

/-- Whether the `$set` document is non-empty (`if update_data:`). -/
def WarStatisticUpdate.hasFields (u : WarStatisticUpdate) : Bool :=
  u.opponent.isSome || u.wins.isSome || u.losses.isSome || u.order.isSome

/-- Route `PUT /wars/{war_id}` (lines 156-167), auth-gated partial update.
The final `none` branch is unreachable: the update never changes `id`, so
the re-fetch after a successful first fetch always finds the document. -/
def update_war (secret : String) (now : Int) (tok : Token) (war_id : String)
    (war_data : WarStatisticUpdate) (s : AppState) :
    Except ApiError WarStatistic × AppState :=
  match verify_token secret now tok with
  | .error e => (.error e, s)
  | .ok _ =>
    match s.wars.find? (fun d => d.data.id == war_id) with
    | none => (.error (.notFound "War not found"), s)
    | some _ =>
      let wars' :=
        if war_data.hasFields then
          updateFirst (fun d => d.data.id == war_id)
            (fun d => { d with data := apply_update war_data d.data }) s.wars
        else s.wars
      let s' := { s with wars := wars' }
      match wars'.find? (fun d => d.data.id == war_id) with
      | some d => (.ok d.data, s')
      | none => (.error (.notFound "War not found"), s')

/-- Route `DELETE /wars/{war_id}` (lines 169-174), auth-gated. -/
def delete_war (secret : String) (now : Int) (tok : Token) (war_id : String)
    (s : AppState) : Except ApiError String × AppState :=
  match verify_token secret now tok with
  | .error e => (.error e, s)
  | .ok _ =>
    if s.wars.any (fun d => d.data.id == war_id) then
      (.ok "War deleted successfully",
        { s with wars := deleteFirst (fun d => d.data.id == war_id) s.wars })
    else (.error (.notFound "War not found"), s)

/-- Route `GET /gallery` (lines 177-183): sorted by `created_at`
descending, capped at 100, `_id` stripped. -/
def get_gallery (s : AppState) : List GalleryImage :=
  mongoList (descBy GalleryImage.created_at) s.gallery

/-- Route `POST /gallery` (lines 185-191), auth-gated. -/
def add_gallery_image (secret : String) (now : Int) (tok : Token)
    (image_data : GalleryImageCreate) (fid : String) (oid : Nat) (s : AppState) :
    Except ApiError GalleryImage × AppState :=
  match verify_token secret now tok with
  | .error e => (.error e, s)
  | .ok _ =>
    let image_obj : GalleryImage :=
      { id := fid, image_url := image_data.image_url, created_at := now }
    (.ok image_obj,
      { s with gallery := s.gallery ++ [{ internalId := oid, data := image_obj }] })

/-- Route `DELETE /gallery/{image_id}` (lines 193-198), auth-gated. -/
def delete_gallery_image (secret : String) (now : Int) (tok : Token)
    (image_id : String) (s : AppState) : Except ApiError String × AppState :=
  match verify_token secret now tok with
  | .error e => (.error e, s)
  | .ok _ =>
    if s.gallery.any (fun d => d.data.id == image_id) then
      (.ok "Image deleted successfully",
        { s with gallery := deleteFirst (fun d => d.data.id == image_id) s.gallery })
    else (.error (.notFound "Image not found"), s)

/-- Route `GET /testimonials` (lines 201-208): `approved_only` defaults to
`true` and selects the Mongo query `approved = true`; then sorted by
`created_at` descending, capped at 100, `_id` stripped. -/
def get_testimonials (s : AppState) (approved_only : Bool) : List Testimonial :=
  mongoList (descBy Testimonial.created_at)
    (s.testimonials.filter fun d => if approved_only then d.data.approved else true)

/-- Route `POST /testimonials` (lines 210-216): public, no token; the
record takes the pydantic defaults `approved = false` and a fresh
timestamp. -/
def create_testimonial (testimonial_data : TestimonialCreate) (fid : String)
    (oid : Nat) (now : Int) (s : AppState) :
    Except ApiError Testimonial × AppState :=
  let obj : Testimonial :=
    { id := fid, author_name := testimonial_data.author_name,
      content := testimonial_data.content, approved := false, created_at := now }
  (.ok obj, { s with testimonials := s.testimonials ++ [{ internalId := oid, data := obj }] })

/-- Route `PUT /testimonials/{id}/approve` (lines 218-226), auth-gated:
`$set approved = true` on the first match, 404 when nothing matched. -/
def approve_testimonial (secret : String) (now : Int) (tok : Token)
    (testimonial_id : String) (s : AppState) : Except ApiError String × AppState :=
  match verify_token secret now tok with
  | .error e => (.error e, s)
  | .ok _ =>
    if s.testimonials.any (fun d => d.data.id == testimonial_id) then
      (.ok "Testimonial approved",
        { s with testimonials :=
            (updateFirst (fun d => d.data.id == testimonial_id)
              (fun d => { d with data := { d.data with approved := true } })
              s.testimonials) })
    else (.error (.notFound "Testimonial not found"), s)

/-- Route `DELETE /testimonials/{id}` (lines 228-233), auth-gated. -/
def delete_testimonial (secret : String) (now : Int) (tok : Token)
    (testimonial_id : String) (s : AppState) : Except ApiError String × AppState :=
  match verify_token secret now tok with
  | .error e => (.error e, s)
  | .ok _ =>
    if s.testimonials.any (fun d => d.data.id == testimonial_id) then
      (.ok "Testimonial deleted successfully",
        { s with testimonials :=
            deleteFirst (fun d => d.data.id == testimonial_id) s.testimonials })
    else (.error (.notFound "Testimonial not found"), s)

/-- Response of `GET /admin/stats`. -/
structure AdminStats where
  total_testimonials : Nat
  pending_testimonials : Nat
  approved_testimonials : Nat
  total_wars : Nat
  total_gallery : Nat
  deriving DecidableEq, Repr

/-- Route `GET /admin/stats` (lines 286-300), auth-gated, read-only:
`count_documents` over the testimonial/war/gallery collections. -/
def get_admin_stats (secret : String) (now : Int) (tok : Token) (s : AppState) :
    Except ApiError AdminStats × AppState :=
  match verify_token secret now tok with
  | .error e => (.error e, s)
  | .ok _ =>
    (.ok { total_testimonials := s.testimonials.length
           pending_testimonials := (s.testimonials.filter fun d => !d.data.approved).length
           approved_testimonials := (s.testimonials.filter fun d => d.data.approved).length
           total_wars := s.wars.length
           total_gallery := s.gallery.length }, s)

/-- Fresh values consumed by the seeding endpoint: `uuid.uuid4()` ids,
Mongo-internal ids, and `datetime.now` timestamps, indexed by order of
generation. -/
structure Supply where
  ids : Nat → String
  oids : Nat → Nat
  time : Nat → Int

/-- Seed leaders inserted by the bootstrap endpoint (lines 311-337). -/
def seed_leaders (sup : Supply) : List (Stored Leader) :=
  [ { internalId := sup.oids 0,
      data := { id := sup.ids 0, name := "Вергилий", title := "Основатель клана",
                description := "Мудрый лидер и символ чести клана PORTUGAL. Основал легенду.",
                image_url := "https://customer-assets.emergentagent.com/job_e7a85aa0-8f83-447e-897d-d6a37e1483e7/artifacts/nrlemlvl_image.png",
                order := 1 } },
    { internalId := sup.oids 1,
      data := { id := sup.ids 1, name := "Астер", title := "Главнокомандующий клана",
                description := "Стратег и герой Португалии. Ведёт клан к великим победам.",
                image_url := "https://customer-assets.emergentagent.com/job_e7a85aa0-8f83-447e-897d-d6a37e1483e7/artifacts/bnfzign7_image.png",
                order := 2 } },
    { internalId := sup.oids 2,
      data := { id := sup.ids 2, name := "Денис", title := "Герцог Браги",
                description := "Элитный воин и правая рука Астера. Непобедим в бою.",
                image_url := "https://customer-assets.emergentagent.com/job_e7a85aa0-8f83-447e-897d-d6a37e1483e7/artifacts/4im444p4_image.png",
                order := 3 } } ]

/-- Seed war statistics inserted by the bootstrap endpoint (lines 340-348). -/
def seed_wars (sup : Supply) : List (Stored WarStatistic) :=
  [ { internalId := sup.oids 3,
      data := { id := sup.ids 3, opponent := "Монголия и Казахи", wins := 11, losses := 1, order := 1 } },
    { internalId := sup.oids 4,
      data := { id := sup.ids 4, opponent := "Франция", wins := 6, losses := 0, order := 2 } },
    { internalId := sup.oids 5,
      data := { id := sup.ids 5, opponent := "Рим", wins := 4, losses := 4, order := 3 } },
    { internalId := sup.oids 6,
      data := { id := sup.ids 6, opponent := "ДжК", wins := 1, losses := 5, order := 4 } },
    { internalId := sup.oids 7,
      data := { id := sup.ids 7, opponent := "Англия", wins := 0, losses := 1, order := 5 } },
    { internalId := sup.oids 8,
      data := { id := sup.ids 8, opponent := "ОУ", wins := 2, losses := 0, order := 6 } } ]

/-- Seed gallery images inserted by the bootstrap endpoint (lines 351-357). -/
def seed_gallery (sup : Supply) : List (Stored GalleryImage) :=
  [ { internalId := sup.oids 9,
      data := { id := sup.ids 9,
                image_url := "https://customer-assets.emergentagent.com/job_e7a85aa0-8f83-447e-897d-d6a37e1483e7/artifacts/nrlemlvl_image.png",
                created_at := sup.time 0 } },
    { internalId := sup.oids 10,
      data := { id := sup.ids 10,
                image_url := "https://customer-assets.emergentagent.com/job_e7a85aa0-8f83-447e-897d-d6a37e1483e7/artifacts/bnfzign7_image.png",
                created_at := sup.time 1 } },
    { internalId := sup.oids 11,
      data := { id := sup.ids 11,
                image_url := "https://customer-assets.emergentagent.com/job_e7a85aa0-8f83-447e-897d-d6a37e1483e7/artifacts/4im444p4_image.png",
                created_at := sup.time 2 } },
    { internalId := sup.oids 12,
      data := { id := sup.ids 12,
                image_url := "https://customer-assets.emergentagent.com/job_e7a85aa0-8f83-447e-897d-d6a37e1483e7/artifacts/rsdp2wa0_image.png",
                created_at := sup.time 3 } } ]

/-- Route `POST /initialize` (lines 303-359), `initialize_data` in the
source. No token dependency; checks only the leaders collection, then
`insert_many`s the three seed sets. -/
def init_data (sup : Supply) (s : AppState) : Except ApiError String × AppState :=
  if s.leaders.length > 0 then (.ok "Database already initialized", s)
  else
    (.ok "Database initialized successfully",
      { s with
        leaders := s.leaders ++ seed_leaders sup
        wars := s.wars ++ seed_wars sup
        gallery := s.gallery ++ seed_gallery sup })

/-! ### Helper lemmas about the store primitives -/

theorem mongoList_sorted {α : Type} (q : α → α → Prop) [DecidableRel q]
    [IsTotal α q] [IsTrans α q] (l : List (Stored α)) :
    (mongoList q l).Pairwise q := by
  have h1 : List.Pairwise (liftRel q) (List.insertionSort (liftRel q) l) :=
    List.sorted_insertionSort (liftRel q) l
  have h2 : List.Pairwise (liftRel q) ((List.insertionSort (liftRel q) l).take 100) :=
    List.Pairwise.sublist (List.take_sublist _ _) h1
  exact List.pairwise_map.mpr h2

theorem mongoList_perm {α : Type} (q : α → α → Prop) [DecidableRel q]
    (l : List (Stored α)) (h : l.length ≤ 100) :
    (mongoList q l).Perm (l.map fun d => d.data) := by
  unfold mongoList
  rw [List.take_of_length_le (by rw [List.length_insertionSort]; exact h)]
  exact (List.perm_insertionSort (liftRel q) l).map _

theorem mongoList_length {α : Type} (q : α → α → Prop) [DecidableRel q]
    (l : List (Stored α)) :
    (mongoList q l).length = min 100 l.length := by
  simp [mongoList]

theorem mem_mongoList {α : Type} {q : α → α → Prop} [DecidableRel q]
    {l : List (Stored α)} {x : α} (h : x ∈ mongoList q l) :
    ∃ d ∈ l, x = d.data := by
  unfold mongoList at h
  rcases List.mem_map.mp h with ⟨d, hd, rfl⟩
  exact ⟨d, (List.perm_insertionSort (liftRel q) l).mem_iff.mp
    (List.mem_of_mem_take hd), rfl⟩

theorem updateFirst_of_not {α : Type} (p : α → Bool) (f : α → α) :
    ∀ l : List α, (∀ x ∈ l, p x = false) → updateFirst p f l = l
  | [], _ => rfl
  | a :: l, h => by
    simp only [updateFirst, h a (List.mem_cons_self a l), Bool.false_eq_true, if_false]
    rw [updateFirst_of_not p f l fun x hx => h x (List.mem_cons_of_mem a hx)]

theorem updateFirst_append {α : Type} (p : α → Bool) (f : α → α) :
    ∀ (l1 : List α) (a : α) (l2 : List α), (∀ x ∈ l1, p x = false) → p a = true →
      updateFirst p f (l1 ++ a :: l2) = l1 ++ f a :: l2
  | [], a, l2, _, ha => by simp [updateFirst, ha]
  | b :: l1, a, l2, h, ha => by
    have hb := h b (List.mem_cons_self b l1)
    simp only [List.cons_append, updateFirst, hb, Bool.false_eq_true, if_false]
    exact congrArg (List.cons b)
      (updateFirst_append p f l1 a l2 (fun x hx => h x (List.mem_cons_of_mem b hx)) ha)

theorem deleteFirst_append {α : Type} (p : α → Bool) :
    ∀ (l1 : List α) (a : α) (l2 : List α), (∀ x ∈ l1, p x = false) → p a = true →
      deleteFirst p (l1 ++ a :: l2) = l1 ++ l2
  | [], a, l2, _, ha => by simp [deleteFirst, ha]
  | b :: l1, a, l2, h, ha => by
    have hb := h b (List.mem_cons_self b l1)
    simp only [List.cons_append, deleteFirst, hb, Bool.false_eq_true, if_false]
    exact congrArg (List.cons b)
      (deleteFirst_append p l1 a l2 (fun x hx => h x (List.mem_cons_of_mem b hx)) ha)

theorem find?_append_first {α : Type} (p : α → Bool) :
    ∀ (l1 : List α) (a : α) (l2 : List α), (∀ x ∈ l1, p x = false) → p a = true →
      (l1 ++ a :: l2).find? p = some a
  | [], a, l2, _, ha => by simp [List.find?_cons_of_pos _ ha]
  | b :: l1, a, l2, h, ha => by
    have hb := h b (List.mem_cons_self b l1)
    rw [List.cons_append, List.find?_cons_of_neg _ (by simp [hb]),
      find?_append_first p l1 a l2 (fun x hx => h x (List.mem_cons_of_mem b hx)) ha]

theorem mem_updateFirst {α : Type} (p : α → Bool) (f : α → α) :
    ∀ (l : List α) (y : α), y ∈ updateFirst p f l → y ∈ l ∨ ∃ x ∈ l, y = f x
  | a :: l, y, hy => by
    by_cases hpa : p a = true
    · simp only [updateFirst, hpa, if_true] at hy
      rcases List.mem_cons.mp hy with h | h
      · exact Or.inr ⟨a, List.mem_cons_self a l, h⟩
      · exact Or.inl (List.mem_cons_of_mem a h)
    · simp only [updateFirst, hpa, if_false] at hy
      rcases List.mem_cons.mp hy with h | h
      · exact Or.inl (h ▸ List.mem_cons_self a l)
      · rcases mem_updateFirst p f l y h with h' | ⟨x, hx, hfx⟩
        · exact Or.inl (List.mem_cons_of_mem a h')
        · exact Or.inr ⟨x, List.mem_cons_of_mem a hx, hfx⟩

/-- Auth-failure detail strings are always 401: `verify_token` only ever
raises `HTTP_401_UNAUTHORIZED`. -/
theorem verify_token_error_statusCode (secret : String) (now : Int) (tok : Token)
    (e : ApiError) (h : verify_token secret now tok = .error e) : e.statusCode = 401 := by
  cases tok with
  | malformed raw =>
    simp only [verify_token, Except.error.injEq] at h
    subst h; rfl
  | signed p sec =>
    by_cases hs : sec ≠ secret
    · simp only [verify_token, if_pos hs, Except.error.injEq] at h
      subst h; rfl
    · by_cases he : p.exp ≤ now
      · simp only [verify_token, if_neg hs, if_pos he, Except.error.injEq] at h
        subst h; rfl
      · simp only [verify_token, if_neg hs, if_neg he] at h
        exact Except.noConfusion h

/-! ### Claims -/

/-- C1 (amended): the seven auth-gated mutating routes (war create, war
update, war delete, gallery create, gallery delete, testimonial approve,
testimonial delete) fail with the 401 Unauthorized error produced by
`verify_token` and leave the store completely unchanged whenever the
request's token does not decode with a valid signature and unexpired
expiry. (The original claim also listed the bootstrap route among the
token-gated operations; `C1_counterexample` shows it mutates the store
with no token at all.) -/
theorem C1_auth_gate (secret : String) (now : Int) (tok : Token) (e : ApiError)
    (h : verify_token secret now tok = .error e) (s : AppState) :
    e.statusCode = 401 ∧
    (∀ wc fid oid, create_war secret now tok wc fid oid s = (.error e, s)) ∧
    (∀ wid u, update_war secret now tok wid u s = (.error e, s)) ∧
    (∀ wid, delete_war secret now tok wid s = (.error e, s)) ∧
    (∀ gc fid oid, add_gallery_image secret now tok gc fid oid s = (.error e, s)) ∧
    (∀ gid, delete_gallery_image secret now tok gid s = (.error e, s)) ∧
    (∀ tid, approve_testimonial secret now tok tid s = (.error e, s)) ∧
    (∀ tid, delete_testimonial secret now tok tid s = (.error e, s)) := by
  refine ⟨verify_token_error_statusCode secret now tok e h, ?_, ?_, ?_, ?_, ?_, ?_, ?_⟩
  · intro wc fid oid; simp [create_war, h]
  · intro wid u; simp [update_war, h]
  · intro wid; simp [delete_war, h]
  · intro gc fid oid; simp [add_gallery_image, h]
  · intro gid; simp [delete_gallery_image, h]
  · intro tid; simp [approve_testimonial, h]
  · intro tid; simp [delete_testimonial, h]

/-- Witness for C1_auth_gate: an expired token is rejected by the war
create route, concretely. -/
theorem C1_auth_gate_witness :
    create_war "sec" 10 (Token.signed { sub := "u", role := "admin", exp := 5 } "sec")
        { opponent := "X" } "i" 0 emptyState =
      (.error (.unauthorized "Token expired"), emptyState) ∧
    (ApiError.unauthorized "Token expired").statusCode = 401 := by
  have h := C1_auth_gate "sec" 10 (Token.signed { sub := "u", role := "admin", exp := 5 } "sec")
    (.unauthorized "Token expired") (by rfl) emptyState
  exact ⟨h.2.1 { opponent := "X" } "i" 0, h.1⟩

/-- C1 counterexample: the bootstrap route takes no token whatsoever, yet
performs its insertions: from the empty store it reports success and
populates the leaders collection, refuting the claim that every mutating
operation other than testimonial creation requires a valid token. -/
theorem C1_counterexample :
    (init_data { ids := fun _ => "id", oids := fun n => n, time := fun _ => 0 } emptyState).1 =
      .ok "Database initialized successfully" ∧
    (init_data { ids := fun _ => "id", oids := fun n => n, time := fun _ => 0 }
        emptyState).2.leaders.length = 3 := by
  constructor <;> rfl

/-- C2: login succeeds exactly on the statically configured admin
credentials; on success it returns a bearer token signed with the
server's secret whose payload is the given username as subject, role
"admin" and expiry 24 hours (86400 model seconds) after issuance — in
particular the token verifies until that time; on any mismatch it fails
with 401 Unauthorized. -/
theorem C2_login (cfg : Config) (now : Int) (ld : AdminLogin) :
    ((ld.username = cfg.admin_username ∧ ld.password = cfg.admin_password) →
      admin_login cfg now ld =
        .ok { access_token :=
                Token.signed { sub := ld.username, role := "admin", exp := now + 24 * 60 * 60 }
                  cfg.jwt_secret,
              token_type := "bearer" } ∧
      (∀ t : Int, t < now + 24 * 60 * 60 →
        verify_token cfg.jwt_secret t
            (Token.signed { sub := ld.username, role := "admin", exp := now + 24 * 60 * 60 }
              cfg.jwt_secret) =
          .ok { sub := ld.username, role := "admin", exp := now + 24 * 60 * 60 })) ∧
    (¬(ld.username = cfg.admin_username ∧ ld.password = cfg.admin_password) →
      admin_login cfg now ld = .error (.unauthorized "Invalid credentials") ∧
      (ApiError.unauthorized "Invalid credentials").statusCode = 401) := by
  constructor
  · intro hc
    refine ⟨?_, ?_⟩
    · simp [admin_login, hc, create_access_token]
    · intro t ht
      simp only [verify_token]
      rw [if_neg (by simp), if_neg (not_le.mpr ht)]
  · intro hc
    exact ⟨by simp [admin_login, hc], rfl⟩

/-- Witness for C2_login: both branches at concrete configuration. -/
theorem C2_login_witness :
    admin_login { jwt_secret := "sec", admin_username := "boss", admin_password := "pw" } 0
        { username := "boss", password := "pw" } =
      .ok { access_token :=
              Token.signed { sub := "boss", role := "admin", exp := 86400 } "sec",
            token_type := "bearer" } ∧
    admin_login { jwt_secret := "sec", admin_username := "boss", admin_password := "pw" } 0
        { username := "boss", password := "wrong" } =
      .error (.unauthorized "Invalid credentials") := by
  constructor
  · exact ((C2_login { jwt_secret := "sec", admin_username := "boss", admin_password := "pw" } 0
      { username := "boss", password := "pw" }).1 (by decide)).1
  · exact ((C2_login { jwt_secret := "sec", admin_username := "boss", admin_password := "pw" } 0
      { username := "boss", password := "wrong" }).2 (by decide)).1

theorem length_filter_not_add {α : Type} (p : α → Bool) :
    ∀ l : List α, (l.filter fun a => !p a).length + (l.filter p).length = l.length
  | [] => rfl
  | a :: l => by
    have ih := length_filter_not_add p l
    by_cases h : p a = true
    · simp only [List.filter_cons, h, Bool.not_true, Bool.false_eq_true, if_false, if_true,
        List.length_cons]
      omega
    · have h' : p a = false := by revert h; cases p a <;> simp
      simp only [List.filter_cons, h', Bool.not_false, Bool.false_eq_true, if_false, if_true,
        List.length_cons]
      omega

/-- Concrete fresh-value supply used by witnesses. -/
def someSupply : Supply :=
  { ids := fun _ => "id", oids := fun n => n, time := fun _ => 0 }

/-- Concrete token accepted by `verify_token "sec" 0`. -/
def tokOK : Token :=
  Token.signed { sub := "u", role := "admin", exp := 1 } "sec"

/-- C5: the bootstrap is a no-op reporting already-initialized whenever
the leaders collection is non-empty; from a state with no leaders it
inserts exactly the fixed seed sets into leaders, wars and gallery; and
calling it twice from the empty store leaves the state of the first call
untouched, duplicating nothing. -/
theorem C5_init_idempotent (sup sup' : Supply) (s : AppState) :
    (s.leaders ≠ [] → init_data sup s = (.ok "Database already initialized", s)) ∧
    (s.leaders = [] →
      init_data sup s =
        (.ok "Database initialized successfully",
         { s with leaders := seed_leaders sup,
                  wars := s.wars ++ seed_wars sup,
                  gallery := s.gallery ++ seed_gallery sup })) ∧
    init_data sup' (init_data sup emptyState).2 =
      (.ok "Database already initialized", (init_data sup emptyState).2) := by
  refine ⟨?_, ?_, ?_⟩
  · intro h
    have hl : s.leaders.length > 0 := List.length_pos.mpr h
    simp [init_data, hl]
  · intro h
    simp [init_data, h]
  · rfl

/-- Witness for C5_init_idempotent: a store whose leaders collection is
non-empty is left untouched and reported already-initialized. -/
theorem C5_init_witness :
    init_data someSupply
        { emptyState with leaders :=
            [{ internalId := 0,
               data := { id := "L", name := "n", title := "t", description := "d",
                         image_url := "u", order := 1 } }] } =
      (.ok "Database already initialized",
       { emptyState with leaders :=
           [{ internalId := 0,
              data := { id := "L", name := "n", title := "t", description := "d",
                        image_url := "u", order := 1 } }] }) := by
  exact (C5_init_idempotent someSupply someSupply _).1 (by simp)

/-- C9 (amended): a testimonial created without an author_name is
persisted, and returned, with the source's default author_name
"Анонимный воин" ("anonymous warrior" in Russian) — not the literal
string "anonymous" the original claim names. -/
theorem C9_default_author (c : String) (fid : String) (oid : Nat) (now : Int) (s : AppState) :
    (create_testimonial { content := c } fid oid now s).2.testimonials.map
        (fun d => d.data.author_name) =
      s.testimonials.map (fun d => d.data.author_name) ++ [some "Анонимный воин"] ∧
    ∃ t : Testimonial, (create_testimonial { content := c } fid oid now s).1 = .ok t ∧
      t.author_name = some "Анонимный воин" := by
  constructor
  · simp [create_testimonial]
  · exact ⟨_, rfl, rfl⟩

/-- C9 counterexample: creating a testimonial without an author_name
stores the author_name "Анонимный воин", which differs from the default
value "anonymous" asserted by the claim. -/
theorem C9_counterexample :
    (create_testimonial { content := "hi" } "i" 0 0 emptyState).2.testimonials.map
        (fun d => d.data.author_name) = [some "Анонимный воин"] ∧
    (some "Анонимный воин" : Option String) ≠ some "anonymous" := by
  exact ⟨rfl, by decide⟩

/-- Concrete store used by the admin-stats witness: two testimonials, one
approved and one pending. -/
def statsDemoState : AppState :=
  { emptyState with testimonials :=
      [ { internalId := 0, data := { id := "a", content := "x", created_at := 0 } },
        { internalId := 1,
          data := { id := "b", content := "y", approved := true, created_at := 1 } } ] }

/-- C10: with a valid token, the admin stats endpoint reports exactly the
sizes of the collections — total testimonials, pending (approved = false),
approved (approved = true), wars, gallery — satisfies
total = pending + approved, and returns the store unchanged. -/
theorem C10_admin_stats (secret : String) (now : Int) (tok : Token)
    (payload : TokenPayload) (h : verify_token secret now tok = .ok payload)
    (s : AppState) :
    get_admin_stats secret now tok s =
      (.ok { total_testimonials := s.testimonials.length
             pending_testimonials := (s.testimonials.filter fun d => !d.data.approved).length
             approved_testimonials := (s.testimonials.filter fun d => d.data.approved).length
             total_wars := s.wars.length
             total_gallery := s.gallery.length }, s) ∧
    s.testimonials.length =
      (s.testimonials.filter fun d => !d.data.approved).length +
        (s.testimonials.filter fun d => d.data.approved).length := by
  constructor
  · simp [get_admin_stats, h]
  · have := length_filter_not_add (fun d => d.data.approved) s.testimonials
    omega

/-- Witness for C10_admin_stats: concrete counts on a two-testimonial
store, with the store returned unchanged. -/
theorem C10_admin_stats_witness :
    get_admin_stats "sec" 0 tokOK statsDemoState =
      (.ok { total_testimonials := 2, pending_testimonials := 1, approved_testimonials := 1,
             total_wars := 0, total_gallery := 0 }, statsDemoState) := by
  exact (C10_admin_stats "sec" 0 tokOK { sub := "u", role := "admin", exp := 1 } rfl
    statsDemoState).1

theorem mongoList_length_le {α : Type} (q : α → α → Prop) [DecidableRel q]
    (l : List (Stored α)) : (mongoList q l).length ≤ 100 := by
  rw [mongoList_length]
  exact Nat.min_le_left _ _

/-- The `approved_only = false` query selects the whole collection. -/
theorem testimonials_filter_false (s : AppState) :
    (s.testimonials.filter fun d => if (false : Bool) then d.data.approved else true) =
      s.testimonials := by
  simp

theorem get_testimonials_false_length (s : AppState) :
    (get_testimonials s false).length = min 100 s.testimonials.length := by
  unfold get_testimonials
  rw [mongoList_length, testimonials_filter_false]

/-- Concrete store used by the list-endpoint witness: two leaders listed
out of `order`. -/
def listDemoState : AppState :=
  { emptyState with leaders :=
      [ { internalId := 0,
          data := { id := "b", name := "B", title := "t", description := "d",
                    image_url := "u", order := 2 } },
        { internalId := 1,
          data := { id := "a", name := "A", title := "t", description := "d",
                    image_url := "u", order := 1 } } ] }

/-- C6: each list route returns its collection sorted by the designated
field — `order` ascending for leaders and wars, `created_at` descending
for gallery and testimonials — capped at 100 results, and strips the
storage-internal identifier: every returned element is the `_id`-free
payload of a stored document, and whenever the collection holds at most
100 documents the result is a permutation of all its payloads. For the
testimonial route the whole-collection part is taken at
`approved_only = false`, the query selecting the full collection; the
default query's approved filter is claim C3's subject. -/
theorem C6_list_endpoints (s : AppState) :
    ((get_leaders s).Pairwise (ascBy Leader.order) ∧
     (get_leaders s).length ≤ 100 ∧
     (∀ x ∈ get_leaders s, ∃ d ∈ s.leaders, x = d.data) ∧
     (s.leaders.length ≤ 100 → (get_leaders s).Perm (s.leaders.map fun d => d.data))) ∧
    ((get_wars s).Pairwise (ascBy WarStatistic.order) ∧
     (get_wars s).length ≤ 100 ∧
     (∀ x ∈ get_wars s, ∃ d ∈ s.wars, x = d.data) ∧
     (s.wars.length ≤ 100 → (get_wars s).Perm (s.wars.map fun d => d.data))) ∧
    ((get_gallery s).Pairwise (descBy GalleryImage.created_at) ∧
     (get_gallery s).length ≤ 100 ∧
     (∀ x ∈ get_gallery s, ∃ d ∈ s.gallery, x = d.data) ∧
     (s.gallery.length ≤ 100 → (get_gallery s).Perm (s.gallery.map fun d => d.data))) ∧
    ((∀ b, (get_testimonials s b).Pairwise (descBy Testimonial.created_at) ∧
       (get_testimonials s b).length ≤ 100 ∧
       (∀ x ∈ get_testimonials s b, ∃ d ∈ s.testimonials, x = d.data)) ∧
     (s.testimonials.length ≤ 100 →
       (get_testimonials s false).Perm (s.testimonials.map fun d => d.data))) := by
  refine ⟨⟨?_, ?_, ?_, ?_⟩, ⟨?_, ?_, ?_, ?_⟩, ⟨?_, ?_, ?_, ?_⟩, ?_, ?_⟩
  · exact mongoList_sorted _ _
  · exact mongoList_length_le _ _
  · exact fun x hx => mem_mongoList hx
  · exact fun h => mongoList_perm _ _ h
  · exact mongoList_sorted _ _
  · exact mongoList_length_le _ _
  · exact fun x hx => mem_mongoList hx
  · exact fun h => mongoList_perm _ _ h
  · exact mongoList_sorted _ _
  · exact mongoList_length_le _ _
  · exact fun x hx => mem_mongoList hx
  · exact fun h => mongoList_perm _ _ h
  · intro b
    refine ⟨mongoList_sorted _ _, mongoList_length_le _ _, ?_⟩
    intro x hx
    obtain ⟨d, hd, rfl⟩ := mem_mongoList hx
    exact ⟨d, List.mem_of_mem_filter hd, rfl⟩
  · intro h
    show (mongoList _ _).Perm _
    rw [testimonials_filter_false s]
    exact mongoList_perm _ _ h

/-- Witness for C6_list_endpoints: two leaders stored out of order come
back sorted by `order` and are a permutation of the stored payloads. -/
theorem C6_list_witness :
    (get_leaders listDemoState).Pairwise (ascBy Leader.order) ∧
    (get_leaders listDemoState).Perm (listDemoState.leaders.map fun d => d.data) := by
  have h := C6_list_endpoints listDemoState
  exact ⟨h.1.1, h.1.2.2.2 (by decide)⟩

/-- Document and store used by the testimonial-approval witness. -/
def pendingDoc : Stored Testimonial :=
  { internalId := 0, data := { id := "a", content := "x", created_at := 0 } }

/-- Store holding one unapproved testimonial. -/
def pendingState : AppState := { emptyState with testimonials := [pendingDoc] }

/-- C3 (amended): a testimonial created through the public endpoint is
persisted with approved = false; the default listing
(approved_only = true) returns only approved entries; the
approved_only = false listing applies no approved filter and returns all
testimonials whenever at most 100 are stored — the route caps its result
at 100 documents, a cap the original claim omitted and which
`C3_counterexample` exhibits at a 101-testimonial store; the auth-gated
approve sets approved := true on the matched testimonial, leaving every
other field and document unchanged, and fails with 404 when the id is
absent. -/
theorem C3_testimonial_flow (s : AppState) :
    (∀ td fid oid now, ∃ t : Testimonial,
      create_testimonial td fid oid now s =
        (.ok t, { s with testimonials := s.testimonials ++ [{ internalId := oid, data := t }] }) ∧
      t.approved = false) ∧
    (∀ t ∈ get_testimonials s true, t.approved = true) ∧
    (s.testimonials.length ≤ 100 →
      (get_testimonials s false).Perm (s.testimonials.map fun d => d.data)) ∧
    (∀ secret now tok payload tid, verify_token secret now tok = .ok payload →
      ((∀ d ∈ s.testimonials, d.data.id ≠ tid) →
        approve_testimonial secret now tok tid s =
          (.error (.notFound "Testimonial not found"), s)) ∧
      (∀ l1 d l2, s.testimonials = l1 ++ d :: l2 → d.data.id = tid →
          (∀ x ∈ l1, x.data.id ≠ tid) →
        approve_testimonial secret now tok tid s =
          (.ok "Testimonial approved",
           { s with testimonials :=
               l1 ++ { internalId := d.internalId,
                       data := { d.data with approved := true } } :: l2 }))) := by
  refine ⟨?_, ?_, ?_, ?_⟩
  · intro td fid oid now
    exact ⟨_, rfl, rfl⟩
  · intro t ht
    obtain ⟨d, hd, rfl⟩ := mem_mongoList ht
    have := List.of_mem_filter hd
    simpa using this
  · intro h
    show (mongoList _ _).Perm _
    rw [testimonials_filter_false s]
    exact mongoList_perm _ _ h
  · intro secret now tok payload tid hverify
    constructor
    · intro hno
      have hany : (s.testimonials.any fun x => x.data.id == tid) = false := by
        rw [List.any_eq_false]
        intro x hx
        simp only [beq_iff_eq]
        exact hno x hx
      simp [approve_testimonial, hverify, hany]
    · intro l1 d l2 hsplit hid hl1
      have hpd : (d.data.id == tid) = true := beq_iff_eq.mpr hid
      have hany : (s.testimonials.any fun x => x.data.id == tid) = true := by
        rw [hsplit]
        exact List.any_eq_true.mpr ⟨d, by simp, hpd⟩
      have hupd := updateFirst_append (fun x : Stored Testimonial => x.data.id == tid)
        (fun x => { x with data := { x.data with approved := true } }) l1 d l2
        (fun x hx => beq_eq_false_iff_ne.mpr (hl1 x hx)) hpd
      simp only [approve_testimonial, hverify, hany, if_true]
      rw [hsplit, hupd]

/-- Witness for C3_testimonial_flow: approving the only (pending)
testimonial of a concrete store flips its approved flag in place. -/
theorem C3_flow_witness :
    approve_testimonial "sec" 0 tokOK "a" pendingState =
      (.ok "Testimonial approved",
       { emptyState with testimonials :=
           [{ internalId := 0,
              data := { id := "a", content := "x", approved := true, created_at := 0 } }] }) := by
  exact ((C3_testimonial_flow pendingState).2.2.2 "sec" 0 tokOK
      { sub := "u", role := "admin", exp := 1 } "a" rfl).2
    [] pendingDoc [] rfl rfl (fun x hx => absurd hx (List.not_mem_nil x))

/-- Store holding 101 approved testimonials with pairwise distinct
creation times. -/
def bigState : AppState :=
  { emptyState with testimonials :=
      (List.range 101).map fun i =>
        { internalId := i,
          data := { id := "t", author_name := some "a", content := "c",
                    approved := true, created_at := -(i : Int) } } }

/-- C3 counterexample: with 101 stored testimonials, the
approved_only = false listing returns only 100 of them (`to_list(100)`),
so it does not return all testimonials as the claim states. -/
theorem C3_counterexample :
    bigState.testimonials.length = 101 ∧
    (get_testimonials bigState false).length = 100 ∧
    ¬ (get_testimonials bigState false).Perm (bigState.testimonials.map fun d => d.data) := by
  have hlen : bigState.testimonials.length = 101 := by
    simp [bigState]
  have hg : (get_testimonials bigState false).length = 100 := by
    rw [get_testimonials_false_length, hlen]
    decide
  refine ⟨hlen, hg, fun hperm => ?_⟩
  have hl := hperm.length_eq
  rw [hg, List.length_map, hlen] at hl
  exact absurd hl (by decide)

/-- War document and store used by the update/delete witnesses. -/
def warDoc : Stored WarStatistic :=
  { internalId := 0,
    data := { id := "w1", opponent := "Spain", wins := 3, losses := 1, order := 7 } }

/-- Store holding the single war record `warDoc`. -/
def warState : AppState := { emptyState with wars := [warDoc] }

/-- C4: with a valid token, a partial war update applies exactly the
provided non-null fields of the request to the (first) record carrying
the given id, leaves its other fields — `id` included — and its internal
identifier unchanged, leaves every other record and collection untouched,
and returns the updated record; when no record carries the id it fails
with NotFound (404) and the store is unchanged. -/
theorem C4_update_war (secret : String) (now : Int) (tok : Token)
    (payload : TokenPayload) (h : verify_token secret now tok = .ok payload)
    (wid : String) (u : WarStatisticUpdate) (s : AppState) :
    ((∀ d ∈ s.wars, d.data.id ≠ wid) →
      update_war secret now tok wid u s = (.error (.notFound "War not found"), s) ∧
      (ApiError.notFound "War not found").statusCode = 404) ∧
    (∀ l1 d l2, s.wars = l1 ++ d :: l2 → d.data.id = wid → (∀ x ∈ l1, x.data.id ≠ wid) →
      ∃ r : WarStatistic,
        update_war secret now tok wid u s =
          (.ok r, { s with wars := l1 ++ { internalId := d.internalId, data := r } :: l2 }) ∧
        r = apply_update u d.data ∧
        r.id = d.data.id ∧
        (∀ v, u.opponent = some v → r.opponent = v) ∧
        (u.opponent = none → r.opponent = d.data.opponent) ∧
        (∀ v, u.wins = some v → r.wins = v) ∧
        (u.wins = none → r.wins = d.data.wins) ∧
        (∀ v, u.losses = some v → r.losses = v) ∧
        (u.losses = none → r.losses = d.data.losses) ∧
        (∀ v, u.order = some v → r.order = v) ∧
        (u.order = none → r.order = d.data.order)) := by
  constructor
  · intro hno
    have hfind : s.wars.find? (fun x => x.data.id == wid) = none := by
      rw [List.find?_eq_none]
      intro x hx
      simp only [beq_iff_eq]
      exact hno x hx
    exact ⟨by simp [update_war, h, hfind], rfl⟩
  · intro l1 d l2 hsplit hid hl1
    have hpd : (d.data.id == wid) = true := beq_iff_eq.mpr hid
    have hl1' : ∀ x ∈ l1, (fun x : Stored WarStatistic => x.data.id == wid) x = false :=
      fun x hx => beq_eq_false_iff_ne.mpr (hl1 x hx)
    have hfind1 : s.wars.find? (fun x => x.data.id == wid) = some d := by
      rw [hsplit]
      exact find?_append_first _ l1 d l2 hl1' hpd
    refine ⟨apply_update u d.data, ?_, rfl, rfl, ?_, ?_, ?_, ?_, ?_, ?_, ?_, ?_⟩
    · by_cases hf : u.hasFields
      · have hupd : updateFirst (fun x => x.data.id == wid)
            (fun x => { x with data := apply_update u x.data }) s.wars =
            l1 ++ { internalId := d.internalId, data := apply_update u d.data } :: l2 := by
          rw [hsplit]
          exact updateFirst_append _ _ l1 d l2 hl1' hpd
        have hfind2 : (l1 ++
            { internalId := d.internalId, data := apply_update u d.data } :: l2).find?
            (fun x => x.data.id == wid) =
            some { internalId := d.internalId, data := apply_update u d.data } :=
          find?_append_first _ l1 _ l2 hl1' hpd
        simp only [update_war, h, hfind1, hf, if_true, hupd, hfind2]
      · have hfalse : u.hasFields = false := by revert hf; cases u.hasFields <;> simp
        have ho : u.opponent = none ∧ u.wins = none ∧ u.losses = none ∧ u.order = none := by
          revert hfalse
          unfold WarStatisticUpdate.hasFields
          cases u.opponent <;> cases u.wins <;> cases u.losses <;> cases u.order <;> simp
        obtain ⟨h1, h2, h3, h4⟩ := ho
        have hr : apply_update u d.data = d.data := by
          simp [apply_update, h1, h2, h3, h4]
        simp only [update_war, h, hfind1, hfalse, Bool.false_eq_true, if_false, hr]
        rw [hsplit]
    · intro v hv; simp [apply_update, hv]
    · intro hv; simp [apply_update, hv]
    · intro v hv; simp [apply_update, hv]
    · intro hv; simp [apply_update, hv]
    · intro v hv; simp [apply_update, hv]
    · intro hv; simp [apply_update, hv]
    · intro v hv; simp [apply_update, hv]
    · intro hv; simp [apply_update, hv]

/-- Witness for C4_update_war: supplying only `wins` rewrites just that
field of the matched record, in place. -/
theorem C4_update_witness :
    update_war "sec" 0 tokOK "w1" { wins := some 7 } warState =
      (.ok { id := "w1", opponent := "Spain", wins := 7, losses := 1, order := 7 },
       { emptyState with wars :=
           [{ internalId := 0,
              data := { id := "w1", opponent := "Spain", wins := 7,
                        losses := 1, order := 7 } }] }) := by
  have h := (C4_update_war "sec" 0 tokOK { sub := "u", role := "admin", exp := 1 } rfl "w1"
      { wins := some 7 } warState).2
    [] warDoc [] rfl rfl (fun x hx => absurd hx (List.not_mem_nil x))
  obtain ⟨r, hmain, hreq, -⟩ := h
  rw [hreq] at hmain
  exact hmain

/-- C7: with a valid token, deleting a war, gallery image or testimonial
by an id no document carries fails with NotFound (404) and leaves the
store unchanged; deleting by an id that is present succeeds and removes
exactly the (first) document carrying it, leaving everything else in
place. -/
theorem C7_delete_endpoints (secret : String) (now : Int) (tok : Token)
    (payload : TokenPayload) (h : verify_token secret now tok = .ok payload)
    (xid : String) (s : AppState) :
    ((∀ d ∈ s.wars, d.data.id ≠ xid) →
      delete_war secret now tok xid s = (.error (.notFound "War not found"), s) ∧
      (ApiError.notFound "War not found").statusCode = 404) ∧
    (∀ l1 d l2, s.wars = l1 ++ d :: l2 → d.data.id = xid → (∀ x ∈ l1, x.data.id ≠ xid) →
      delete_war secret now tok xid s =
        (.ok "War deleted successfully", { s with wars := l1 ++ l2 })) ∧
    ((∀ d ∈ s.gallery, d.data.id ≠ xid) →
      delete_gallery_image secret now tok xid s =
        (.error (.notFound "Image not found"), s)) ∧
    (∀ l1 d l2, s.gallery = l1 ++ d :: l2 → d.data.id = xid → (∀ x ∈ l1, x.data.id ≠ xid) →
      delete_gallery_image secret now tok xid s =
        (.ok "Image deleted successfully", { s with gallery := l1 ++ l2 })) ∧
    ((∀ d ∈ s.testimonials, d.data.id ≠ xid) →
      delete_testimonial secret now tok xid s =
        (.error (.notFound "Testimonial not found"), s)) ∧
    (∀ l1 d l2, s.testimonials = l1 ++ d :: l2 → d.data.id = xid →
        (∀ x ∈ l1, x.data.id ≠ xid) →
      delete_testimonial secret now tok xid s =
        (.ok "Testimonial deleted successfully", { s with testimonials := l1 ++ l2 })) := by
  refine ⟨?_, ?_, ?_, ?_, ?_, ?_⟩
  · intro hno
    have hany : (s.wars.any fun x => x.data.id == xid) = false := by
      rw [List.any_eq_false]; intro x hx; simp only [beq_iff_eq]; exact hno x hx
    exact ⟨by simp [delete_war, h, hany], rfl⟩
  · intro l1 d l2 hsplit hid hl1
    have hpd : (d.data.id == xid) = true := beq_iff_eq.mpr hid
    have hany : (s.wars.any fun x => x.data.id == xid) = true := by
      rw [hsplit]; exact List.any_eq_true.mpr ⟨d, by simp, hpd⟩
    have hdel := deleteFirst_append (fun x : Stored WarStatistic => x.data.id == xid) l1 d l2
      (fun x hx => beq_eq_false_iff_ne.mpr (hl1 x hx)) hpd
    simp only [delete_war, h, hany, if_true]
    rw [hsplit, hdel]
  · intro hno
    have hany : (s.gallery.any fun x => x.data.id == xid) = false := by
      rw [List.any_eq_false]; intro x hx; simp only [beq_iff_eq]; exact hno x hx
    simp [delete_gallery_image, h, hany]
  · intro l1 d l2 hsplit hid hl1
    have hpd : (d.data.id == xid) = true := beq_iff_eq.mpr hid
    have hany : (s.gallery.any fun x => x.data.id == xid) = true := by
      rw [hsplit]; exact List.any_eq_true.mpr ⟨d, by simp, hpd⟩
    have hdel := deleteFirst_append (fun x : Stored GalleryImage => x.data.id == xid) l1 d l2
      (fun x hx => beq_eq_false_iff_ne.mpr (hl1 x hx)) hpd
    simp only [delete_gallery_image, h, hany, if_true]
    rw [hsplit, hdel]
  · intro hno
    have hany : (s.testimonials.any fun x => x.data.id == xid) = false := by
      rw [List.any_eq_false]; intro x hx; simp only [beq_iff_eq]; exact hno x hx
    simp [delete_testimonial, h, hany]
  · intro l1 d l2 hsplit hid hl1
    have hpd : (d.data.id == xid) = true := beq_iff_eq.mpr hid
    have hany : (s.testimonials.any fun x => x.data.id == xid) = true := by
      rw [hsplit]; exact List.any_eq_true.mpr ⟨d, by simp, hpd⟩
    have hdel := deleteFirst_append (fun x : Stored Testimonial => x.data.id == xid) l1 d l2
      (fun x hx => beq_eq_false_iff_ne.mpr (hl1 x hx)) hpd
    simp only [delete_testimonial, h, hany, if_true]
    rw [hsplit, hdel]

/-- Witness for C7_delete_endpoints: deleting the only war by its id
empties the collection; deleting by an absent id returns the NotFound
error and leaves the store as it was. -/
theorem C7_delete_witness :
    delete_war "sec" 0 tokOK "w1" warState = (.ok "War deleted successfully", emptyState) ∧
    delete_war "sec" 0 tokOK "zzz" warState =
      (.error (.notFound "War not found"), warState) := by
  have h1 := C7_delete_endpoints "sec" 0 tokOK { sub := "u", role := "admin", exp := 1 }
    rfl "w1" warState
  have h2 := C7_delete_endpoints "sec" 0 tokOK { sub := "u", role := "admin", exp := 1 }
    rfl "zzz" warState
  refine ⟨?_, (h2.1 (by decide)).1⟩
  exact h1.2.1 [] warDoc [] rfl rfl (fun x hx => absurd hx (List.not_mem_nil x))

/-- Nonnegative wins and losses for every record of a war collection. -/
def warsNonneg (l : List (Stored WarStatistic)) : Prop :=
  ∀ d ∈ l, 0 ≤ d.data.wins ∧ 0 ≤ d.data.losses

/-- The war collection after an update attempt is either untouched or the
first id match rewritten through the request's `$set` document. -/
theorem update_war_state (secret : String) (now : Int) (tok : Token) (wid : String)
    (u : WarStatisticUpdate) (s : AppState) :
    (update_war secret now tok wid u s).2.wars = s.wars ∨
    (update_war secret now tok wid u s).2.wars =
      updateFirst (fun x => x.data.id == wid)
        (fun x => { x with data := apply_update u x.data }) s.wars := by
  unfold update_war
  cases hv : verify_token secret now tok with
  | error e => left; rfl
  | ok p =>
    cases hf : s.wars.find? (fun x => x.data.id == wid) with
    | none => left; rfl
    | some d =>
      by_cases hfl : u.hasFields
      · right
        simp only [hfl, if_true]
        cases hf2 : (updateFirst (fun x => x.data.id == wid)
            (fun x => { x with data := apply_update u x.data }) s.wars).find?
            (fun x => x.data.id == wid) <;> rfl
      · left
        have hfalse : u.hasFields = false := by revert hfl; cases u.hasFields <;> simp
        simp only [hfalse, Bool.false_eq_true, if_false]
        cases hf2 : s.wars.find? (fun x => x.data.id == wid) <;> rfl

/-- C8 (amended): the seed war records all satisfy wins ≥ 0 and
losses ≥ 0, and create and update preserve the all-nonnegative invariant
whenever the request itself supplies nonnegative values — but the code
performs no validation, so a request carrying a negative value stores it
verbatim (`C8_counterexample`). -/
theorem C8_nonneg_conditional (sup : Supply) :
    warsNonneg (seed_wars sup) ∧
    (∀ secret now tok wc fid oid s, warsNonneg (AppState.wars s) →
      0 ≤ wc.wins → 0 ≤ wc.losses →
      warsNonneg (create_war secret now tok wc fid oid s).2.wars) ∧
    (∀ secret now tok wid u s, warsNonneg (AppState.wars s) →
      (∀ v, u.wins = some v → 0 ≤ v) → (∀ v, u.losses = some v → 0 ≤ v) →
      warsNonneg (update_war secret now tok wid u s).2.wars) := by
  refine ⟨?_, ?_, ?_⟩
  · intro d hd
    simp only [seed_wars, List.mem_cons, List.not_mem_nil, or_false] at hd
    rcases hd with rfl | rfl | rfl | rfl | rfl | rfl <;> exact ⟨by norm_num, by norm_num⟩
  · intro secret now tok wc fid oid s hs hw hl
    cases hv : verify_token secret now tok with
    | error e => simpa [create_war, hv] using hs
    | ok p =>
      intro d hd
      simp only [create_war, hv] at hd
      rcases List.mem_append.mp hd with hmem | hmem
      · exact hs d hmem
      · simp only [List.mem_singleton] at hmem
        subst hmem
        exact ⟨hw, hl⟩
  · intro secret now tok wid u s hs hw hl
    rcases update_war_state secret now tok wid u s with heq | heq
    · rw [heq]; exact hs
    · rw [heq]
      intro y hy
      rcases mem_updateFirst _ _ _ y hy with hmem | ⟨x, hx, rfl⟩
      · exact hs y hmem
      · constructor
        · cases hww : u.wins with
          | none => simpa [apply_update, hww] using (hs x hx).1
          | some v => simpa [apply_update, hww] using hw v hww
        · cases hll : u.losses with
          | none => simpa [apply_update, hll] using (hs x hx).2
          | some v => simpa [apply_update, hll] using hl v hll

/-- Witness for C8_nonneg_conditional: the seeds are nonnegative and a
nonnegative create keeps the store nonnegative. -/
theorem C8_nonneg_witness :
    warsNonneg (seed_wars someSupply) ∧
    warsNonneg (create_war "sec" 0 tokOK { opponent := "X", wins := 2, losses := 3 }
      "i" 0 emptyState).2.wars := by
  have h := C8_nonneg_conditional someSupply
  exact ⟨h.1, h.2.1 "sec" 0 tokOK { opponent := "X", wins := 2, losses := 3 } "i" 0 emptyState
    (fun d hd => absurd hd (List.not_mem_nil d)) (by decide) (by decide)⟩

/-- C8 counterexample: an authenticated create request with wins = -1 is
accepted and stored verbatim — the reachable store violates wins ≥ 0,
because neither `WarStatisticCreate` nor the handler validates sign. -/
theorem C8_counterexample :
    (create_war "sec" 0 tokOK { opponent := "X", wins := -1 } "i" 0
        emptyState).2.wars.map (fun d => d.data.wins) = [-1] ∧
    ¬ (0 : Int) ≤ -1 := by
  exact ⟨rfl, by decide⟩

end Portugal
